import Mathlib

/-!
Shallow embedding of `internet_killer/core/news_fetcher.py` and
`config/settings.py` (news collection script: headline-API fetches, RSS
fetches, URL deduplication, CSV/JSON persistence).

The external world (filesystem existence checks, HTTP responses, RSS feed
parses, write failures, the current timestamp) is an explicit `Env` record;
`collect_all_news` is a pure function of the fetcher state, the environment
and the `force_update` flag, returning the result value together with the
observable effects (HTTP requests issued, RSS urls fetched, files written,
articles passed to persistence).
-/

namespace NewsFetcher

/-- `config/settings.py`: `Settings` with `NEWS_API_KEY = os.getenv(...)`
(possibly absent) and `MAX_NEWS_COUNT = 100` (value kept abstract here so
that independence from it can be stated). -/
structure Settings where
  NEWS_API_KEY : Option String
  MAX_NEWS_COUNT : Nat

/-- Python truthiness of an optional string: `None` and `""` are falsy. -/
def truthy : Option String → Bool
  | none => false
  | some s => !(s == "")

/-- The processed article record built by `_fetch_news_by_config` /
`_fetch_rss_news` (the only entity persisted). All fields are strings. -/
structure Article where
  id : String
  title : String
  description : String
  content : String
  url : String
  source_name : String
  category : String
  country : String
  published_at : String
  collected_at : String
  author : String
deriving DecidableEq

/-- A raw article of a parsed headline-API JSON response. `title` and
`description` are the JSON values (possibly `null`, modelled as `none`);
`content` and `author` are read with `.get` defaults. A payload missing a
mandatory key raises inside the `try` of `_fetch_news_by_config` and is
modelled as the whole response being an `Except.error`. -/
structure ApiArticle where
  title : Option String
  description : Option String
  content : Option String
  url : String
  source_name : String
  publishedAt : String
  author : Option String
deriving DecidableEq

/-- A parsed RSS feed entry (`feedparser` entry). `summary`, `contentValue`
(the `value` of the first `content` element, when the entry has a `content`
attribute), `published` and `author` may be absent. -/
structure RssEntry where
  title : String
  summary : Option String
  contentValue : Option String
  link : String
  published : Option String
  author : Option String
deriving DecidableEq

/-- One entry of the `countries_and_categories` list in `collect_all_news`. -/
structure FetchConfig where
  name : String
  country : Option String
  category : Option String
  sources : Option String
deriving DecidableEq

/-- One entry of `self.rss_sources`. -/
structure RssSource where
  url : String
  name : String
  country : String
deriving DecidableEq

/-- The query parameters of a headline-API GET (`params` dict in
`_fetch_news_by_config`): `apiKey` and `pageSize` always present, the rest
optional. -/
structure Params where
  apiKey : String
  pageSize : Nat
  country : Option String
  language : Option String
  category : Option String
  sources : Option String
deriving DecidableEq

/-- The dict returned by `collect_all_news`: one of
`{"status": "already_exists", "date"}`, `{"status": "error", "message"}`,
`{"status": "success", "date", "total_articles", "files"}`. -/
inductive CollectResult where
  | already_exists (date : String)
  | error (message : String)
  | success (date : String) (total_articles : Nat) (files : List String)
deriving DecidableEq

/-- Constructor state of `GlobalNewsFetcher.__init__`: the api key from
settings and the date-derived file paths. -/
structure Fetcher where
  api_key : Option String
  today_str : String
  csv_file : String
  json_file : String
deriving DecidableEq

/-- `GlobalNewsFetcher.__init__`: `api_key := settings.NEWS_API_KEY`,
`csv_file`/`json_file` derived from the date string. -/
def mkFetcher (s : Settings) (today_str : String) : Fetcher :=
  { api_key := s.NEWS_API_KEY
    today_str := today_str
    csv_file := "internet_killer/data/news_data_" ++ today_str ++ ".csv"
    json_file := "internet_killer/data/news_data_" ++ today_str ++ ".json" }

/-- The external world of one run: filesystem existence of today's files,
the outcome of each headline-API request (by configuration index) and each
RSS parse (by source index) — `Except.error` models any exception raised
while fetching or processing that source — write failures, and the
`datetime.now().isoformat()` timestamp. -/
structure Env where
  csvExists : Bool
  jsonExists : Bool
  apiResult : Nat → Except Unit (List ApiArticle)
  rssResult : Nat → Except Unit (List RssEntry)
  csvWriteFails : Bool
  jsonWriteFails : Bool
  now : String

/-- `check_today_data_exists`: both files exist. -/
def check_today_data_exists (env : Env) : Bool :=
  env.csvExists && env.jsonExists

/-- The fixed `countries_and_categories` list of `collect_all_news`. -/
def countriesAndCategories : List FetchConfig :=
  [ { name := "한국 전체", country := some "kr", category := none, sources := none }
  , { name := "한국 기술", country := some "kr", category := some "technology", sources := none }
  , { name := "한국 경제", country := some "kr", category := some "business", sources := none }
  , { name := "한국 연예", country := some "kr", category := some "entertainment", sources := none }
  , { name := "미국 전체", country := some "us", category := none, sources := none }
  , { name := "미국 기술", country := some "us", category := some "technology", sources := none }
  , { name := "미국 경제", country := some "us", category := some "business", sources := none }
  , { name := "미국 정치", country := some "us", category := some "politics", sources := none }
  , { name := "영국 전체", country := some "gb", category := none, sources := none }
  , { name := "영국 경제", country := some "gb", category := some "business", sources := none }
  , { name := "영국 정치", country := some "gb", category := some "politics", sources := none }
  , { name := "글로벌 주요 매체", country := none, category := none
    , sources := some "bbc-news,cnn,reuters,associated-press,techcrunch" } ]

/-- The fixed `self.rss_sources` list. -/
def rssSources : List RssSource :=
  [ { url := "https://feeds.yna.co.kr/news", name := "연합뉴스", country := "kr" }
  , { url := "https://www.mk.co.kr/rss/30000001/", name := "매일경제", country := "kr" }
  , { url := "http://news.chosun.com/site/data/rss/rss.xml", name := "조선일보", country := "kr" }
  , { url := "http://feeds.bbci.co.uk/news/rss.xml", name := "BBC", country := "gb" }
  , { url := "https://www.theguardian.com/world/rss", name := "Guardian", country := "gb" }
  , { url := "http://rss.cnn.com/rss/edition.rss", name := "CNN", country := "us" } ]

/-- The `params` construction of `_fetch_news_by_config` (lines 114-132):
`apiKey` and `pageSize = 20`, then the `country == "kr"` / `country == "gb"`
/ `"sources" in config` / else branches, then the truthy-`category` update.
A config with neither `country` nor `sources` raises `KeyError` on
`config["country"]` (modelled as `Except.error`, before any request). -/
def buildParams (api_key : String) (config : FetchConfig) : Except Unit Params :=
  let base : Params :=
    { apiKey := api_key, pageSize := 20
      country := none, language := none, category := none, sources := none }
  let main : Except Unit Params :=
    if config.country = some "kr" then
      .ok { base with country := some "kr" }
    else if config.country = some "gb" then
      .ok { base with country := some "gb", language := some "en" }
    else
      match config.sources with
      | some s => .ok { base with sources := some s, language := some "en" }
      | none =>
        match config.country with
        | some c => .ok { base with country := some c, language := some "en" }
        | none => .error ()
  main.map fun p =>
    match config.category with
    | some c => if c = "" then p else { p with category := some c }
    | none => p

/-- Processing of one headline-API article that passed the
`article["title"] and article["description"]` filter (lines 145-157), at
output index `idx`. -/
def processApiArticle (config_name : String) (config_country : Option String)
    (now : String) (idx : Nat) (a : ApiArticle) : Article :=
  { id := config_name ++ "_" ++ toString idx
    title := a.title.getD ""
    description := a.description.getD ""
    content :=
      match a.content with
      | some c => if c = "" then "" else c.take 1000 ++ "..."
      | none => ""
    url := a.url
    source_name := a.source_name
    category := config_name
    country := config_country.getD "global"
    published_at := a.publishedAt
    collected_at := now
    author := a.author.getD "Unknown" }

/-- The article loop of `_fetch_news_by_config` (lines 142-158): append a
processed article, with `id` index equal to the current output length,
whenever both `title` and `description` are truthy. -/
def processApiArticles (config_name : String) (config_country : Option String)
    (now : String) (idx : Nat) : List ApiArticle → List Article
  | [] => []
  | a :: rest =>
    if truthy a.title && truthy a.description then
      processApiArticle config_name config_country now idx a ::
        processApiArticles config_name config_country now (idx + 1) rest
    else
      processApiArticles config_name config_country now idx rest

/-- `_fetch_news_by_config`: build the params (an exception there skips the
request), issue the GET, and on any exception during the request or the
processing return `[]`; returns the requests issued and the articles. -/
def fetchNewsByConfig (api_key now : String)
    (resp : Except Unit (List ApiArticle)) (config : FetchConfig) :
    List Params × List Article :=
  match buildParams api_key config with
  | .error _ => ([], [])
  | .ok params =>
    match resp with
    | .error _ => ([params], [])
    | .ok raws => ([params], processApiArticles config.name config.country now 0 raws)

/-- Processing of one RSS entry (lines 175-187) at output index `idx`:
`summary` falls back to the title, both are cut to 200 characters plus
ellipsis; `content` value cut to 1000 characters plus ellipsis when the
entry has a `content` attribute. -/
def processRssEntry (src : RssSource) (now : String) (idx : Nat) (e : RssEntry) : Article :=
  { id := src.name ++ "_" ++ toString idx
    title := e.title
    description := (e.summary.getD e.title).take 200 ++ "..."
    content :=
      match e.contentValue with
      | some v => v.take 1000 ++ "..."
      | none => ""
    url := e.link
    source_name := src.name
    category := src.name ++ " RSS"
    country := src.country
    published_at := e.published.getD now
    collected_at := now
    author := e.author.getD "Unknown" }

/-- `_fetch_rss_news`: on any exception return `[]`; otherwise process the
first 10 entries, all included unconditionally. -/
def fetchRssNews (now : String) (resp : Except Unit (List RssEntry))
    (src : RssSource) : List Article :=
  match resp with
  | .error _ => []
  | .ok entries =>
    (entries.take 10).enum.map fun p => processRssEntry src now p.1 p.2

/-- The per-configuration loop of `collect_all_news` (lines 85-88): each
configuration, in order, gives its issued requests and its articles. -/
def apiFetches (st : Fetcher) (env : Env) : List (List Params × List Article) :=
  countriesAndCategories.enum.map fun p =>
    fetchNewsByConfig (st.api_key.getD "") env.now (env.apiResult p.1) p.2

/-- The per-RSS-source loop of `collect_all_news` (lines 91-94): each
source, in order, gives its fetched url and its articles. -/
def rssFetches (env : Env) : List (String × List Article) :=
  rssSources.enum.map fun p =>
    (p.2.url, fetchRssNews env.now (env.rssResult p.1) p.2)

/-- The `all_articles` list of `collect_all_news`: all per-configuration
results then all per-RSS-feed results, in their fixed iteration order. -/
def allArticles (st : Fetcher) (env : Env) : List Article :=
  ((apiFetches st env).map Prod.snd).flatten ++ ((rssFetches env).map Prod.snd).flatten

/-- `_remove_duplicates` loop with the accumulated `seen_urls` set. -/
def removeDuplicatesAux (seen : List String) : List Article → List Article
  | [] => []
  | a :: rest =>
    if a.url ∈ seen then
      removeDuplicatesAux seen rest
    else
      a :: removeDuplicatesAux (a.url :: seen) rest

/-- `_remove_duplicates`: keep the first article for each url, in order. -/
def remove_duplicates (articles : List Article) : List Article :=
  removeDuplicatesAux [] articles

/-- `_save_to_files`: write the CSV then the JSON inside one `try`; any
exception is caught and logged, with no rollback of files already written.
Returns the list of files successfully written. -/
def save_to_files (st : Fetcher) (env : Env) : List String :=
  if env.csvWriteFails then []
  else if env.jsonWriteFails then [st.csv_file]
  else [st.csv_file, st.json_file]

/-- The observable outcome of one `collect_all_news` call: the returned
dict, the headline-API GETs issued, the RSS urls fetched, the files
written, and the deduplicated list handed to `_save_to_files`. -/
structure RunResult where
  result : CollectResult
  requests : List Params
  rssRequests : List String
  filesWritten : List String
  savedArticles : List Article
deriving DecidableEq

/-- `collect_all_news` (lines 47-108). -/
def collect_all_news (st : Fetcher) (env : Env) (force_update : Bool) : RunResult :=
  if check_today_data_exists env && !force_update then
    { result := .already_exists st.today_str
      requests := [], rssRequests := [], filesWritten := [], savedArticles := [] }
  else if !truthy st.api_key then
    { result := .error "API key missing"
      requests := [], rssRequests := [], filesWritten := [], savedArticles := [] }
  else
    { result := .success st.today_str (remove_duplicates (allArticles st env)).length
        [st.csv_file, st.json_file]
      requests := ((apiFetches st env).map Prod.fst).flatten
      rssRequests := (rssFetches env).map Prod.fst
      filesWritten := save_to_files st env
      savedArticles := remove_duplicates (allArticles st env) }

/-- Filesystem state after a run: a file exists afterwards when it existed
before or the run wrote it. -/
def afterRun (st : Fetcher) (env : Env) (r : RunResult) : Env :=
  { env with
    csvExists := env.csvExists || r.filesWritten.contains st.csv_file
    jsonExists := env.jsonExists || r.filesWritten.contains st.json_file }


/-! ## Deduplication lemmas -/

/-- The dedup loop never keeps an article whose url is already in `seen`. -/
lemma url_not_seen_of_mem_removeDuplicatesAux (seen : List String)
    (l : List Article) (b : Article) (hb : b ∈ removeDuplicatesAux seen l) :
    b.url ∉ seen := by
  induction l generalizing seen with
  | nil => simp [removeDuplicatesAux] at hb
  | cons a rest ih =>
    by_cases h : a.url ∈ seen
    · exact ih seen (by simpa [removeDuplicatesAux, h] using hb)
    · rcases (by simpa [removeDuplicatesAux, h] using hb : b = a ∨ b ∈ removeDuplicatesAux (a.url :: seen) rest) with rfl | hmem
      · exact h
      · have := ih (a.url :: seen) hmem
        exact fun hc => this (List.mem_cons_of_mem _ hc)

/-- The urls of the dedup loop's output are pairwise distinct. -/
lemma nodup_urls_removeDuplicatesAux (seen : List String) (l : List Article) :
    ((removeDuplicatesAux seen l).map Article.url).Nodup := by
  induction l generalizing seen with
  | nil => simp [removeDuplicatesAux]
  | cons a rest ih =>
    by_cases h : a.url ∈ seen
    · simpa [removeDuplicatesAux, h] using ih seen
    · rw [removeDuplicatesAux, if_neg h]
      simp only [List.map_cons, List.nodup_cons]
      refine ⟨?_, ih (a.url :: seen)⟩
      intro hmem
      rcases List.mem_map.mp hmem with ⟨b, hb, hurl⟩
      exact url_not_seen_of_mem_removeDuplicatesAux _ _ _ hb (hurl ▸ List.mem_cons_self _ _)

/-- The dedup loop's output is a sublist of its input (order preserved). -/
lemma sublist_removeDuplicatesAux (seen : List String) (l : List Article) :
    (removeDuplicatesAux seen l).Sublist l := by
  induction l generalizing seen with
  | nil => simp [removeDuplicatesAux]
  | cons a rest ih =>
    by_cases h : a.url ∈ seen
    · simpa [removeDuplicatesAux, h] using (ih seen).trans (List.sublist_cons_self a rest)
    · simpa [removeDuplicatesAux, h] using (ih (a.url :: seen)).cons₂ a

/-- Every url of the input not already seen is represented in the output. -/
lemma exists_mem_removeDuplicatesAux (seen : List String) (l : List Article)
    (a : Article) (ha : a ∈ l) (hs : a.url ∉ seen) :
    ∃ b ∈ removeDuplicatesAux seen l, b.url = a.url := by
  induction l generalizing seen with
  | nil => simp at ha
  | cons x rest ih =>
    by_cases h : x.url ∈ seen
    · rcases List.mem_cons.mp ha with rfl | ha'
      · exact absurd h (by simpa using hs)
      · rcases ih seen ha' hs with ⟨b, hb, hurl⟩
        exact ⟨b, by simpa [removeDuplicatesAux, h] using hb, hurl⟩
    · by_cases hxa : x.url = a.url
      · exact ⟨x, by simp [removeDuplicatesAux, h], hxa⟩
      · rcases List.mem_cons.mp ha with rfl | ha'
        · exact absurd rfl hxa
        · rcases ih (x.url :: seen) ha' (by simp [hs, Ne.symm hxa]) with ⟨b, hb, hurl⟩
          exact ⟨b, by simp [removeDuplicatesAux, h, hb], hurl⟩

/-- A kept article is the first article of the input with its url. -/
lemma find?_eq_of_mem_removeDuplicatesAux (seen : List String) (l : List Article)
    (b : Article) (hb : b ∈ removeDuplicatesAux seen l) :
    l.find? (fun x => x.url == b.url) = some b := by
  induction l generalizing seen with
  | nil => simp [removeDuplicatesAux] at hb
  | cons a rest ih =>
    by_cases h : a.url ∈ seen
    · have hb' : b ∈ removeDuplicatesAux seen rest := by
        simpa [removeDuplicatesAux, h] using hb
      have hne : a.url ≠ b.url := fun hc =>
        url_not_seen_of_mem_removeDuplicatesAux seen rest b hb' (hc ▸ h)
      rw [List.find?_cons_of_neg _ (by simpa using hne)]
      exact ih seen hb'
    · rcases (by simpa [removeDuplicatesAux, h] using hb :
          b = a ∨ b ∈ removeDuplicatesAux (a.url :: seen) rest) with rfl | hmem
      · exact List.find?_cons_of_pos _ (by simp)
      · have hne : a.url ≠ b.url := fun hc =>
          url_not_seen_of_mem_removeDuplicatesAux _ _ b hmem (hc ▸ List.mem_cons_self _ _)
        rw [List.find?_cons_of_neg _ (by simpa using hne)]
        exact ih (a.url :: seen) hmem

/-! ## Sample values for witnesses -/

/-- A concrete fetcher with a configured api key. -/
def sampleFetcher : Fetcher :=
  mkFetcher { NEWS_API_KEY := some "k", MAX_NEWS_COUNT := 100 } "20260101"

/-- A concrete environment: no file exists yet, every source answers with an
empty successful payload, writes succeed. -/
def sampleEnv : Env :=
  { csvExists := false, jsonExists := false
    apiResult := fun _ => .ok [], rssResult := fun _ => .ok []
    csvWriteFails := false, jsonWriteFails := false, now := "T0" }

/-- A concrete environment in which both of today's files already exist. -/
def sampleEnvExists : Env :=
  { sampleEnv with csvExists := true, jsonExists := true }

/-- A concrete article with a chosen url. -/
def sampleArticle (u : String) : Article :=
  { id := "a0", title := "t", description := "d", content := "", url := u
    source_name := "s", category := "c", country := "kr"
    published_at := "p", collected_at := "T0", author := "au" }

/-! ## Claims -/

/-- C1: `collect_all_news` persists exactly
`_remove_duplicates` of the concatenation of all per-configuration and
per-RSS-feed results in their fixed iteration order, and
`_remove_duplicates` keeps each url at most once, keeps for every input url
exactly its first occurrence, and preserves the relative order of the
survivors (output is a sublist of the input). -/
theorem claim_C1_dedup_first_occurrence_wins (st : Fetcher) (env : Env)
    (l : List Article) (hk : truthy st.api_key = true) :
    ((remove_duplicates l).map Article.url).Nodup
    ∧ (remove_duplicates l).Sublist l
    ∧ (∀ a ∈ l, ∃ b ∈ remove_duplicates l, b.url = a.url)
    ∧ (∀ b ∈ remove_duplicates l, l.find? (fun x => x.url == b.url) = some b)
    ∧ (collect_all_news st env true).savedArticles
        = remove_duplicates (allArticles st env) := by
  refine ⟨nodup_urls_removeDuplicatesAux [] l, sublist_removeDuplicatesAux [] l,
    ?_, ?_, ?_⟩
  · intro a ha
    exact exists_mem_removeDuplicatesAux [] l a ha (by simp)
  · intro b hb
    exact find?_eq_of_mem_removeDuplicatesAux [] l b hb
  · simp [collect_all_news, check_today_data_exists, hk]

/-- Witness for C1 at a concrete fetcher, environment and article list. -/
theorem claim_C1_witness :
    ((remove_duplicates [sampleArticle "u", sampleArticle "u"]).map Article.url).Nodup
    ∧ (remove_duplicates [sampleArticle "u", sampleArticle "u"]).Sublist
        [sampleArticle "u", sampleArticle "u"]
    ∧ (∀ a ∈ [sampleArticle "u", sampleArticle "u"],
        ∃ b ∈ remove_duplicates [sampleArticle "u", sampleArticle "u"], b.url = a.url)
    ∧ (∀ b ∈ remove_duplicates [sampleArticle "u", sampleArticle "u"],
        [sampleArticle "u", sampleArticle "u"].find? (fun x => x.url == b.url) = some b)
    ∧ (collect_all_news sampleFetcher sampleEnv true).savedArticles
        = remove_duplicates (allArticles sampleFetcher sampleEnv) :=
  claim_C1_dedup_first_occurrence_wins sampleFetcher sampleEnv
    [sampleArticle "u", sampleArticle "u"] (by decide)

/-- C2: with both of today's files present and `force_update = false`,
`collect_all_news` returns the "already exists" result carrying the date,
issues no requests and writes no files; and after a successful first call
(on a date whose files were absent, with writes succeeding), a second call
on the same date takes exactly this branch. -/
theorem claim_C2_already_exists_guard (st : Fetcher) (env env1 : Env)
    (h1 : env.csvExists = true) (h2 : env.jsonExists = true)
    (h3 : (env1.csvExists && env1.jsonExists) = false)
    (h4 : truthy st.api_key = true)
    (h5 : env1.csvWriteFails = false) (h6 : env1.jsonWriteFails = false) :
    collect_all_news st env false =
      { result := .already_exists st.today_str
        requests := [], rssRequests := [], filesWritten := [], savedArticles := [] }
    ∧ (collect_all_news st env1 false).result
        = .success st.today_str (remove_duplicates (allArticles st env1)).length
            [st.csv_file, st.json_file]
    ∧ collect_all_news st (afterRun st env1 (collect_all_news st env1 false)) false =
      { result := .already_exists st.today_str
        requests := [], rssRequests := [], filesWritten := [], savedArticles := [] } := by
  refine ⟨?_, ?_, ?_⟩
  · simp [collect_all_news, check_today_data_exists, h1, h2]
  · simp [collect_all_news, check_today_data_exists, h3, h4]
  · set r := collect_all_news st env1 false with hr
    have hrun : r.filesWritten = [st.csv_file, st.json_file] := by
      rw [hr]
      simp [collect_all_news, check_today_data_exists, h3, h4, save_to_files, h5, h6]
    have hcsv : (afterRun st env1 r).csvExists = true := by
      simp [afterRun, hrun]
    have hjson : (afterRun st env1 r).jsonExists = true := by
      simp [afterRun, hrun]
    simp only [collect_all_news, check_today_data_exists, hcsv, hjson]
    simp

/-- Witness for C2 at a concrete fetcher and environments. -/
theorem claim_C2_witness :
    collect_all_news sampleFetcher sampleEnvExists false =
      { result := .already_exists sampleFetcher.today_str
        requests := [], rssRequests := [], filesWritten := [], savedArticles := [] }
    ∧ (collect_all_news sampleFetcher sampleEnv false).result
        = .success sampleFetcher.today_str
            (remove_duplicates (allArticles sampleFetcher sampleEnv)).length
            [sampleFetcher.csv_file, sampleFetcher.json_file]
    ∧ collect_all_news sampleFetcher
        (afterRun sampleFetcher sampleEnv (collect_all_news sampleFetcher sampleEnv false))
        false =
      { result := .already_exists sampleFetcher.today_str
        requests := [], rssRequests := [], filesWritten := [], savedArticles := [] } :=
  claim_C2_already_exists_guard sampleFetcher sampleEnvExists sampleEnv
    rfl rfl rfl (by decide) rfl rfl

/-- C3: past the existence guard, a missing (or empty) api key makes
`collect_all_news` return the structured error result, with no requests
issued and no files written. -/
theorem claim_C3_missing_api_key (st : Fetcher) (env : Env) (force_update : Bool)
    (hg : (check_today_data_exists env && !force_update) = false)
    (hk : truthy st.api_key = false) :
    collect_all_news st env force_update =
      { result := .error "API key missing"
        requests := [], rssRequests := [], filesWritten := [], savedArticles := [] } := by
  simp [collect_all_news, hg, hk]

/-- Witness for C3 at a concrete fetcher with no api key. -/
theorem claim_C3_witness :
    collect_all_news
      (mkFetcher { NEWS_API_KEY := none, MAX_NEWS_COUNT := 100 } "20260101")
      sampleEnv false =
      { result := .error "API key missing"
        requests := [], rssRequests := [], filesWritten := [], savedArticles := [] } :=
  claim_C3_missing_api_key
    (mkFetcher { NEWS_API_KEY := none, MAX_NEWS_COUNT := 100 } "20260101")
    sampleEnv false rfl rfl

/-! ## Fail-soft lemmas -/

/-- A failed headline-API source behaves exactly like one answering with an
empty article list (same request issued, zero articles). -/
lemma fetchNewsByConfig_error_eq_ok_nil (api_key now : String) (config : FetchConfig) :
    fetchNewsByConfig api_key now (.error ()) config
      = fetchNewsByConfig api_key now (.ok []) config := by
  unfold fetchNewsByConfig
  cases buildParams api_key config <;> simp [processApiArticles]

/-- `collect_all_news` reads the environment only through the existence
check, the per-source fetches and the write outcomes. -/
lemma collect_all_news_congr (st : Fetcher) (env env' : Env) (force_update : Bool)
    (h1 : check_today_data_exists env = check_today_data_exists env')
    (h2 : apiFetches st env = apiFetches st env')
    (h3 : rssFetches env = rssFetches env')
    (h4 : save_to_files st env = save_to_files st env') :
    collect_all_news st env force_update = collect_all_news st env' force_update := by
  simp only [collect_all_news, allArticles, h1, h2, h3, h4]

/-- Replacing a failing headline-API source by one answering an empty list
leaves the per-configuration fetch results unchanged. -/
lemma apiFetches_error_update (st : Fetcher) (env : Env) (i : Nat)
    (h : env.apiResult i = .error ()) :
    apiFetches st env
      = apiFetches st
          { env with apiResult := fun j => if j = i then .ok [] else env.apiResult j } := by
  unfold apiFetches
  refine List.map_congr_left ?_
  intro p _
  by_cases hp : p.1 = i
  · show fetchNewsByConfig _ _ (env.apiResult p.1) _
        = fetchNewsByConfig _ _ (if p.1 = i then .ok [] else env.apiResult p.1) _
    rw [if_pos hp, hp, h]
    exact fetchNewsByConfig_error_eq_ok_nil _ _ _
  · show fetchNewsByConfig _ _ (env.apiResult p.1) _
        = fetchNewsByConfig _ _ (if p.1 = i then .ok [] else env.apiResult p.1) _
    rw [if_neg hp]

/-- Replacing a failing RSS source by one answering an empty feed leaves
the per-source fetch results unchanged. -/
lemma rssFetches_error_update (env : Env) (i : Nat)
    (h : env.rssResult i = .error ()) :
    rssFetches env
      = rssFetches
          { env with rssResult := fun j => if j = i then .ok [] else env.rssResult j } := by
  unfold rssFetches
  refine List.map_congr_left ?_
  intro p _
  by_cases hp : p.1 = i
  · show (p.2.url, fetchRssNews _ (env.rssResult p.1) _)
        = (p.2.url, fetchRssNews _ (if p.1 = i then .ok [] else env.rssResult p.1) _)
    rw [if_pos hp, hp, h]
    rfl
  · show (p.2.url, fetchRssNews _ (env.rssResult p.1) _)
        = (p.2.url, fetchRssNews _ (if p.1 = i then .ok [] else env.rssResult p.1) _)
    rw [if_neg hp]

/-- A concrete environment in which every source raises. -/
def sampleEnvFail : Env :=
  { sampleEnv with apiResult := fun _ => .error (), rssResult := fun _ => .error () }

/-- C4: a source that raises contributes exactly zero articles, and the
whole run (result, requests, files, saved articles) equals the run in
which that source returned the empty list — all other sources unaffected. -/
theorem claim_C4_failing_source_contributes_nothing (st : Fetcher)
    (envA envB : Env) (force_update : Bool) (i j : Nat)
    (ha : envA.apiResult i = .error ())
    (hb : envB.rssResult j = .error ()) :
    (∀ api_key now config,
      (fetchNewsByConfig api_key now (.error ()) config).2 = ([] : List Article))
    ∧ (∀ now src, fetchRssNews now (.error ()) src = ([] : List Article))
    ∧ collect_all_news st envA force_update
        = collect_all_news st
            { envA with apiResult := fun k => if k = i then .ok [] else envA.apiResult k }
            force_update
    ∧ collect_all_news st envB force_update
        = collect_all_news st
            { envB with rssResult := fun k => if k = j then .ok [] else envB.rssResult k }
            force_update := by
  refine ⟨?_, ?_, ?_, ?_⟩
  · intro api_key now config
    unfold fetchNewsByConfig
    cases buildParams api_key config <;> rfl
  · intro now src
    rfl
  · exact collect_all_news_congr st envA _ force_update rfl
      (apiFetches_error_update st envA i ha) rfl rfl
  · exact collect_all_news_congr st envB _ force_update rfl rfl
      (rssFetches_error_update envB j hb) rfl

/-- Witness for C4 at a concrete fetcher and failing environments. -/
theorem claim_C4_witness :
    (∀ api_key now config,
      (fetchNewsByConfig api_key now (.error ()) config).2 = ([] : List Article))
    ∧ (∀ now src, fetchRssNews now (.error ()) src = ([] : List Article))
    ∧ collect_all_news sampleFetcher sampleEnvFail false
        = collect_all_news sampleFetcher
            { sampleEnvFail with
              apiResult := fun k => if k = 0 then .ok [] else sampleEnvFail.apiResult k }
            false
    ∧ collect_all_news sampleFetcher sampleEnvFail false
        = collect_all_news sampleFetcher
            { sampleEnvFail with
              rssResult := fun k => if k = 0 then .ok [] else sampleEnvFail.rssResult k }
            false :=
  claim_C4_failing_source_contributes_nothing sampleFetcher sampleEnvFail sampleEnvFail
    false 0 0 rfl rfl

/-- C5: a headline-API article whose (truthy) content is longer than 1000
characters is stored with content equal to its first 1000 characters
followed by the 3-character suffix "...". -/
theorem claim_C5_content_truncated_at_1000 (config_name : String)
    (config_country : Option String) (now : String) (idx : Nat)
    (a : ApiArticle) (c : String)
    (hc : a.content = some c) (hlen : 1000 < c.length) :
    (processApiArticle config_name config_country now idx a).content
      = c.take 1000 ++ "..."
    ∧ ("..." : String).length = 3 := by
  have hne : ¬ c = "" := by
    intro he
    rw [he] at hlen
    exact absurd hlen (by decide)
  exact ⟨by simp [processApiArticle, hc, hne], rfl⟩

/-- A concrete headline-API raw article with a 1001-character content. -/
def longContentArticle : ApiArticle :=
  { title := some "t", description := some "d"
    content := some (String.mk (List.replicate 1001 'x'))
    url := "u", source_name := "s", publishedAt := "p", author := none }

/-- Witness for C5 at a concrete 1001-character content. -/
theorem claim_C5_witness :
    (processApiArticle "n" (some "kr") "T0" 0 longContentArticle).content
      = (String.mk (List.replicate 1001 'x')).take 1000 ++ "..."
    ∧ ("..." : String).length = 3 :=
  claim_C5_content_truncated_at_1000 "n" (some "kr") "T0" 0 longContentArticle
    (String.mk (List.replicate 1001 'x')) rfl
    (by
      rw [show (String.mk (List.replicate 1001 'x')).length
            = (List.replicate 1001 'x').length from rfl, List.length_replicate]
      exact Nat.lt_succ_self 1000)

/-! ## Filtering lemmas -/

/-- Dropping the articles that fail the title/description truthiness check
does not change the processed output of one configuration. -/
lemma processApiArticles_filter (n : String) (co : Option String) (now : String)
    (raws : List ApiArticle) :
    ∀ idx : Nat,
      processApiArticles n co now idx raws
        = processApiArticles n co now idx
            (raws.filter fun a => truthy a.title && truthy a.description) := by
  induction raws with
  | nil => intro idx; rfl
  | cons a rest ih =>
    intro idx
    by_cases h : (truthy a.title && truthy a.description) = true
    · simp [processApiArticles, List.filter_cons, h, ih]
    · simp [processApiArticles, List.filter_cons, h, ih idx]

/-- Every article of a configuration's output comes from a raw article with
truthy title and description, whose fields it carries. -/
lemma exists_raw_of_mem_processApiArticles (n : String) (co : Option String)
    (now : String) (raws : List ApiArticle) :
    ∀ (idx : Nat) (out : Article), out ∈ processApiArticles n co now idx raws →
      ∃ a ∈ raws, truthy a.title = true ∧ truthy a.description = true
        ∧ out.title = a.title.getD "" ∧ out.description = a.description.getD ""
        ∧ out.url = a.url := by
  induction raws with
  | nil => intro idx out hout; simp [processApiArticles] at hout
  | cons a rest ih =>
    intro idx out hout
    by_cases h : (truthy a.title && truthy a.description) = true
    · rcases (by simpa [processApiArticles, h] using hout :
          out = processApiArticle n co now idx a
            ∨ out ∈ processApiArticles n co now (idx + 1) rest) with rfl | hmem
      · exact ⟨a, List.mem_cons_self _ _, (Bool.and_eq_true _ _).mp h |>.1,
          (Bool.and_eq_true _ _).mp h |>.2, rfl, rfl, rfl⟩
      · rcases ih (idx + 1) out hmem with ⟨b, hb, hrest⟩
        exact ⟨b, List.mem_cons_of_mem _ hb, hrest⟩
    · have hmem : out ∈ processApiArticles n co now idx rest := by
        simpa [processApiArticles, h] using hout
      rcases ih idx out hmem with ⟨b, hb, hrest⟩
      exact ⟨b, List.mem_cons_of_mem _ hb, hrest⟩

/-- C6: a headline-API article enters a configuration's result list only
when both its title and its description are truthy (present and
non-empty); the untruthy ones contribute nothing to the output. -/
theorem claim_C6_title_description_gate (config_name : String)
    (config_country : Option String) (now : String) (raws : List ApiArticle) :
    processApiArticles config_name config_country now 0 raws
      = processApiArticles config_name config_country now 0
          (raws.filter fun a => truthy a.title && truthy a.description)
    ∧ ∀ out ∈ processApiArticles config_name config_country now 0 raws,
        ∃ a ∈ raws, truthy a.title = true ∧ truthy a.description = true
          ∧ out.title = a.title.getD "" ∧ out.description = a.description.getD ""
          ∧ out.url = a.url :=
  ⟨processApiArticles_filter config_name config_country now raws 0,
    fun out hout =>
      exists_raw_of_mem_processApiArticles config_name config_country now raws 0 out hout⟩

/-- A concrete raw article with an empty description. -/
def emptyDescriptionArticle : ApiArticle :=
  { title := some "t", description := some "", content := none
    url := "u2", source_name := "s", publishedAt := "p", author := none }

/-- Witness for C6 at a concrete two-article payload (one with an empty
description, which contributes nothing). -/
theorem claim_C6_witness :
    processApiArticles "n" (some "kr") "T0" 0 [longContentArticle, emptyDescriptionArticle]
      = processApiArticles "n" (some "kr") "T0" 0
          ([longContentArticle, emptyDescriptionArticle].filter
            fun a => truthy a.title && truthy a.description)
    ∧ ∀ out ∈ processApiArticles "n" (some "kr") "T0" 0
        [longContentArticle, emptyDescriptionArticle],
        ∃ a ∈ [longContentArticle, emptyDescriptionArticle],
          truthy a.title = true ∧ truthy a.description = true
          ∧ out.title = a.title.getD "" ∧ out.description = a.description.getD ""
          ∧ out.url = a.url :=
  claim_C6_title_description_gate "n" (some "kr") "T0"
    [longContentArticle, emptyDescriptionArticle]

/-- C7: an RSS entry with no summary is still processed — its description
is its title cut to 200 characters with "..." appended — and every entry
among the first 10 of a successfully parsed feed is included, whatever its
fields. -/
theorem claim_C7_rss_summary_fallback (src : RssSource) (now : String) (idx : Nat)
    (e : RssEntry) (entries : List RssEntry) (h : e.summary = none) :
    (processRssEntry src now idx e).description = e.title.take 200 ++ "..."
    ∧ (fetchRssNews now (.ok entries) src).length = min 10 entries.length := by
  constructor
  · simp [processRssEntry, h]
  · simp [fetchRssNews]

/-- A concrete RSS entry with no summary. -/
def noSummaryEntry : RssEntry :=
  { title := "headline", summary := none, contentValue := none
    link := "u3", published := none, author := none }

/-- Witness for C7 at a concrete no-summary entry. -/
theorem claim_C7_witness :
    (processRssEntry { url := "r", name := "BBC", country := "gb" } "T0" 0
        noSummaryEntry).description
      = noSummaryEntry.title.take 200 ++ "..."
    ∧ (fetchRssNews "T0" (.ok [noSummaryEntry])
        { url := "r", name := "BBC", country := "gb" }).length
      = min 10 [noSummaryEntry].length :=
  claim_C7_rss_summary_fallback { url := "r", name := "BBC", country := "gb" }
    "T0" 0 noSummaryEntry [noSummaryEntry] rfl

/-! ## Query-parameter shapes (C8) -/

/-- First shape asserted by the claim, from its words: remaining parameters
are exactly a country and an optional category (no language, no sources). -/
def claimedShape1 (p : Params) : Bool :=
  p.country.isSome && p.language.isNone && p.sources.isNone

/-- Second shape asserted by the claim: country `gb` with `language=en` and
an optional category. -/
def claimedShape2 (p : Params) : Bool :=
  (p.country == some "gb") && (p.language == some "en") && p.sources.isNone

/-- Third shape asserted by the claim: a comma-separated source list with
`language=en` and nothing else. -/
def claimedShape3 (p : Params) : Bool :=
  p.sources.isSome && (p.language == some "en") && p.country.isNone && p.category.isNone

/-- The claim's disjunction of the three shapes. -/
def claimedShapes (p : Params) : Bool :=
  claimedShape1 p || claimedShape2 p || claimedShape3 p

/-- The configuration at index 4 of the fixed list (US, no category). -/
def usAllConfig : FetchConfig :=
  { name := "미국 전체", country := some "us", category := none, sources := none }

/-- The parameters the code builds for `usAllConfig` with api key "k". -/
def usAllParams : Params :=
  { apiKey := "k", pageSize := 20, country := some "us", language := some "en"
    category := none, sources := none }

/-- C8 counterexample: the US configurations are in the fixed list and get
`language=en` from the `else` branch, so their parameters match none of the
claim's three shapes. -/
theorem claim_C8_counterexample :
    usAllConfig ∈ countriesAndCategories
    ∧ buildParams "k" usAllConfig = .ok usAllParams
    ∧ claimedShapes usAllParams = false := by
  refine ⟨by decide, rfl, by decide⟩

/-- The shapes actually produced by the code: `country=kr` alone, any other
country with `language=en`, or a source list with `language=en` (each with
an optional category except the source-list shape). -/
def amendedShapes (p : Params) : Bool :=
  ((p.country == some "kr") && p.language.isNone && p.sources.isNone)
  || (p.country.isSome && !(p.country == some "kr") && (p.language == some "en")
      && p.sources.isNone)
  || (p.sources.isSome && (p.language == some "en") && p.country.isNone
      && p.category.isNone)

/-- A successful parameter build carrying the api key, `pageSize=20` and
one of the amended shapes. -/
def paramsWellFormed (api_key : String) : Except Unit Params → Bool
  | .ok p => (p.apiKey == api_key) && (p.pageSize == 20) && amendedShapes p
  | .error _ => false

/-- In any run, the requests list is either empty (guard branches) or the
concatenation of the per-configuration requests. -/
lemma requests_cases (st : Fetcher) (env : Env) (force_update : Bool) :
    (collect_all_news st env force_update).requests = []
    ∨ (collect_all_news st env force_update).requests
        = ((apiFetches st env).map Prod.fst).flatten := by
  unfold collect_all_news
  by_cases h1 : (check_today_data_exists env && !force_update) = true
  · rw [if_pos h1]; exact Or.inl rfl
  · rw [if_neg h1]
    by_cases h2 : (!truthy st.api_key) = true
    · rw [if_pos h2]; exact Or.inl rfl
    · rw [if_neg h2]; exact Or.inr rfl

/-- Every request a run issues to the headline API was built by
`buildParams` from some configuration of the fixed list. -/
lemma mem_requests_buildParams (st : Fetcher) (env : Env) (p : Params)
    (hp : p ∈ ((apiFetches st env).map Prod.fst).flatten) :
    ∃ config ∈ countriesAndCategories,
      buildParams (st.api_key.getD "") config = .ok p := by
  rcases List.mem_flatten.mp hp with ⟨l, hl, hpl⟩
  rw [apiFetches, List.map_map] at hl
  rcases List.mem_map.mp hl with ⟨q, hq, rfl⟩
  have hcfg : q.2 ∈ countriesAndCategories := by
    have := List.mem_map_of_mem Prod.snd hq
    rwa [List.enum_map_snd] at this
  refine ⟨q.2, hcfg, ?_⟩
  revert hpl
  show p ∈ (fetchNewsByConfig (st.api_key.getD "") env.now (env.apiResult q.1) q.2).1 → _
  unfold fetchNewsByConfig
  cases hbp : buildParams (st.api_key.getD "") q.2 with
  | error e => intro hpl; simp at hpl
  | ok params =>
    cases env.apiResult q.1 with
    | error e => intro hpl; simp at hpl; rw [hpl]
    | ok raws => intro hpl; simp at hpl; rw [hpl]

/-- C8 (amended): every configuration of the fixed list yields parameters
carrying `apiKey` and `pageSize=20` whose remaining parameters match one of
exactly three shapes: `{country=kr, optional category}`,
`{country≠kr, language=en, optional category}`, or
`{sources=<csv>, language=en}`; consequently every headline-API GET issued
by a run with that api key carries such parameters. -/
theorem claim_C8_amended_param_shapes (api_key : String) :
    (∀ config ∈ countriesAndCategories,
      paramsWellFormed api_key (buildParams api_key config) = true)
    ∧ ∀ (st : Fetcher) (env : Env) (force_update : Bool),
        st.api_key = some api_key →
        ∀ p ∈ (collect_all_news st env force_update).requests,
          paramsWellFormed api_key (.ok p) = true := by
  have part1 : ∀ config ∈ countriesAndCategories,
      paramsWellFormed api_key (buildParams api_key config) = true := by
    intro config hc
    fin_cases hc <;> simp [paramsWellFormed, buildParams, amendedShapes, Except.map]
  refine ⟨part1, ?_⟩
  intro st env force_update hkey p hp
  have hkey2 : st.api_key.getD "" = api_key := by rw [hkey]; rfl
  rcases requests_cases st env force_update with hreq | hreq
  · rw [hreq] at hp; simp at hp
  · rw [hreq] at hp
    rcases mem_requests_buildParams st env p hp with ⟨config, hcfg, hbp⟩
    rw [hkey2] at hbp
    have := part1 config hcfg
    rwa [hbp] at this

/-- Witness for the amended C8 at a concrete api key and configuration. -/
theorem claim_C8_witness :
    paramsWellFormed "k" (buildParams "k" usAllConfig) = true :=
  (claim_C8_amended_param_shapes "k").1 usAllConfig (by decide)

/-- C9: `MAX_NEWS_COUNT` is never read by the collection logic — two runs
identical in everything but that setting produce identical run outcomes
(result, requests, files written, saved articles). -/
theorem claim_C9_max_news_count_unused (s1 s2 : Settings)
    (h : s1.NEWS_API_KEY = s2.NEWS_API_KEY) (today_str : String) (env : Env)
    (force_update : Bool) :
    collect_all_news (mkFetcher s1 today_str) env force_update
      = collect_all_news (mkFetcher s2 today_str) env force_update := by
  have hst : mkFetcher s1 today_str = mkFetcher s2 today_str := by
    simp [mkFetcher, h]
  rw [hst]

/-- Witness for C9 with `MAX_NEWS_COUNT` 100 versus 0. -/
theorem claim_C9_witness :
    collect_all_news
        (mkFetcher { NEWS_API_KEY := some "k", MAX_NEWS_COUNT := 100 } "20260101")
        sampleEnv false
      = collect_all_news
          (mkFetcher { NEWS_API_KEY := some "k", MAX_NEWS_COUNT := 0 } "20260101")
          sampleEnv false :=
  claim_C9_max_news_count_unused
    { NEWS_API_KEY := some "k", MAX_NEWS_COUNT := 100 }
    { NEWS_API_KEY := some "k", MAX_NEWS_COUNT := 0 } rfl "20260101" sampleEnv false

/-- C10: whatever the write-failure outcome inside `_save_to_files`,
`collect_all_news` (past the guards) returns the "success" result with the
date, the deduplicated article count and both output file paths. -/
theorem claim_C10_persist_failure_swallowed (st : Fetcher) (env : Env)
    (force_update : Bool) (b b' : Bool)
    (hg : (check_today_data_exists env && !force_update) = false)
    (hk : truthy st.api_key = true) :
    (collect_all_news st { env with csvWriteFails := b, jsonWriteFails := b' }
        force_update).result
      = .success st.today_str (remove_duplicates (allArticles st env)).length
          [st.csv_file, st.json_file] := by
  have hg' : (check_today_data_exists
      { env with csvWriteFails := b, jsonWriteFails := b' } && !force_update)
      = false := hg
  have ha : allArticles st { env with csvWriteFails := b, jsonWriteFails := b' }
      = allArticles st env := rfl
  simp [collect_all_news, hg', hk, ha]

/-- Witness for C10 with both writes failing. -/
theorem claim_C10_witness :
    (collect_all_news sampleFetcher
        { sampleEnv with csvWriteFails := true, jsonWriteFails := true } false).result
      = .success sampleFetcher.today_str
          (remove_duplicates (allArticles sampleFetcher sampleEnv)).length
          [sampleFetcher.csv_file, sampleFetcher.json_file] :=
  claim_C10_persist_failure_swallowed sampleFetcher sampleEnv false true true
    rfl (by decide)

end NewsFetcher
